import Mathlib

/-!
# Verification of `color_finder.py` (calacademy-research/color_finder)

Shallow embedding of the single-module program `src/color_finder.py`.

* Pixels and RGB bounds are `Nat` triples (numpy `uint8` values, only
  compared, never arithmetically combined, so `Nat` is faithful).
* `PIL.Image.open(..).convert('RGB').resize((100,100))` followed by
  `np.array` is modelled by an environment function
  `decode : String → Option ResampledImage`, where a `ResampledImage`
  is the 100×100 pixel grid flattened to `Fin (100 * 100) → RGB`;
  `none` models any exception raised while opening/decoding the file
  (zero-byte file, corrupt data, missing path, ...).
* `datetime.strptime(s, '%Y%m%d')` is modelled by `strptimeYmd`,
  following CPython `_strptime`: `%Y` matches exactly four digits,
  `%m` matches the regex `1[0-2]|0[1-9]|[1-9]` and `%d` the regex
  `3[01]|[12]\d|0[1-9]|[1-9]` (two-digit alternatives first, with
  backtracking), the whole string must be consumed, and the resulting
  (year, month, day) must be a valid `datetime.date` (year ≥ 1, day
  within the month's length, Gregorian leap years).
* Filesystem traversal (`os.listdir`, `os.path.isdir`, `os.path.exists`,
  `os.walk`) and `shutil.copy` are modelled by an `FS` environment
  record; `logging` output is modelled as a list of `Event`s.
* Percentages are `Rat` (Python floats; only order comparisons and the
  exact values 0 and 100 matter to the properties proved here).
-/

/-- An RGB pixel / bound triple (numpy `uint8` values, 0–255 in practice). -/
structure RGB where
  r : Nat
  g : Nat
  b : Nat
deriving DecidableEq, Repr

/-- A parsed calendar date, as produced by `datetime.strptime(s, '%Y%m%d')`. -/
structure Date where
  year : Nat
  month : Nat
  day : Nat
deriving DecidableEq, Repr

/-- Model of `datetime` comparison: lexicographic on (year, month, day). -/
def dateLe (a b : Date) : Bool :=
  decide (a.year < b.year ∨ (a.year = b.year ∧
    (a.month < b.month ∨ (a.month = b.month ∧ a.day ≤ b.day))))

/-! ## Character-list utilities (Python `str` operations) -/

/-- Python `str.split('_')` on a list of characters. -/
def splitUnd : List Char → List (List Char)
  | [] => [[]]
  | c :: rest =>
    if c = '_' then [] :: splitUnd rest
    else
      match splitUnd rest with
      | [] => [[c]]
      | h :: t => (c :: h) :: t

/-- Executable prefix test on character lists. -/
def isPrefixL (needle hay : List Char) : Bool :=
  match needle, hay with
  | [], _ => true
  | a :: as, b :: bs => if a = b then isPrefixL as bs else false
  | _ :: _, [] => false

/-- Python `needle in hay` substring test: `needle` is a prefix of some
suffix of `hay`. -/
def containsSub (needle : List Char) : List Char → Bool
  | [] => isPrefixL needle []
  | c :: cs => isPrefixL needle (c :: cs) || containsSub needle cs

/-- Python `str.endswith` as a suffix test via reversed prefixes. -/
def isSuffixL (needle hay : List Char) : Bool :=
  isPrefixL needle.reverse hay.reverse

/-- Python `str.lower()` (ASCII; all characters relevant here are ASCII). -/
def toLowerL (l : List Char) : List Char :=
  l.map Char.toLower

/-! ## `datetime.strptime(s, '%Y%m%d')` -/

/-- Numeric value of a decimal digit character, `none` otherwise. -/
def digitVal (c : Char) : Option Nat :=
  if '0' ≤ c ∧ c ≤ '9' then some (c.toNat - 48) else none

/-- Parse `%Y`: exactly four leading digits. -/
def parseYear : List Char → Option (Nat × List Char)
  | a :: b :: c :: d :: rest =>
    match digitVal a, digitVal b, digitVal c, digitVal d with
    | some w, some x, some y, some z => some (w * 1000 + x * 100 + y * 10 + z, rest)
    | _, _, _, _ => none
  | _ => none

/-- Parse `%m`, two-digit alternatives of CPython regex `1[0-2]|0[1-9]`. -/
def parseMonth2 : List Char → Option (Nat × List Char)
  | a :: b :: rest =>
    if a = '1' ∧ '0' ≤ b ∧ b ≤ '2' then some (10 + (b.toNat - 48), rest)
    else if a = '0' ∧ '1' ≤ b ∧ b ≤ '9' then some (b.toNat - 48, rest)
    else none
  | _ => none

/-- Parse `%m`, one-digit alternative `[1-9]`. -/
def parseMonth1 : List Char → Option (Nat × List Char)
  | a :: rest => if '1' ≤ a ∧ a ≤ '9' then some (a.toNat - 48, rest) else none
  | [] => none

/-- Parse `%d`, two-digit alternatives of CPython regex `3[01]|[12]\d|0[1-9]`. -/
def parseDay2 : List Char → Option (Nat × List Char)
  | a :: b :: rest =>
    if a = '3' ∧ ('0' ≤ b ∧ b ≤ '1') then some (30 + (b.toNat - 48), rest)
    else if ('1' ≤ a ∧ a ≤ '2') ∧ ('0' ≤ b ∧ b ≤ '9') then
      some ((a.toNat - 48) * 10 + (b.toNat - 48), rest)
    else if a = '0' ∧ ('1' ≤ b ∧ b ≤ '9') then some (b.toNat - 48, rest)
    else none
  | _ => none

/-- Parse `%d`, one-digit alternative `[1-9]`. -/
def parseDay1 : List Char → Option (Nat × List Char)
  | a :: rest => if '1' ≤ a ∧ a ≤ '9' then some (a.toNat - 48, rest) else none
  | [] => none

/-- Match `%d` against all remaining input (two-digit alternatives first,
then one-digit, as regex backtracking does); the match must consume the
rest of the string (`found.end()` check in `_strptime`). -/
def parseDayAll (l : List Char) : Option Nat :=
  match parseDay2 l with
  | some (d, []) => some d
  | _ =>
    match parseDay1 l with
    | some (d, []) => some d
    | _ => none

/-- Match `%m%d` against all remaining input with regex backtracking:
a two-digit month is preferred, falling back to a one-digit month when
no day match can consume the remainder. -/
def parseMonthDay (l : List Char) : Option (Nat × Nat) :=
  match parseMonth2 l with
  | some (m, rest) =>
    match parseDayAll rest with
    | some d => some (m, d)
    | none =>
      match parseMonth1 l with
      | some (m1, rest1) => (parseDayAll rest1).map (fun d => (m1, d))
      | none => none
  | none =>
    match parseMonth1 l with
    | some (m1, rest1) => (parseDayAll rest1).map (fun d => (m1, d))
    | none => none

/-- Gregorian leap year, as `datetime` uses. -/
def isLeap (y : Nat) : Bool :=
  (y % 4 = 0 && y % 100 != 0) || y % 400 = 0

/-- Length of a month, as `datetime` uses. -/
def daysInMonth (y m : Nat) : Nat :=
  if m = 2 then (if isLeap y then 29 else 28)
  else if m = 4 ∨ m = 6 ∨ m = 9 ∨ m = 11 then 30
  else 31

/-- Model of `datetime.strptime(s, '%Y%m%d')`: regex match of `%Y%m%d` over the
whole string, then `datetime` construction, which validates the day
against the month length and requires year ≥ MINYEAR = 1.
Returns `none` where Python raises `ValueError`. -/
def strptimeYmd (s : List Char) : Option Date :=
  match parseYear s with
  | none => none
  | some (y, rest) =>
    match parseMonthDay rest with
    | none => none
    | some (m, d) =>
      if 1 ≤ y ∧ 1 ≤ d ∧ d ≤ daysInMonth y m then some ⟨y, m, d⟩ else none

/-! ## The color registry and `ColorImageFinder` -/

/-- The registry `self.color_bounds` from `ColorImageFinder.__init__`
(`color_finder.py` lines 20–28): name → (lower RGB, upper RGB). -/
def color_bounds : List (String × (RGB × RGB)) :=
  [ ("red",    (⟨255, 0, 0⟩,     ⟨255, 250, 255⟩)),
    ("green",  (⟨0, 200, 0⟩,     ⟨100, 255, 100⟩)),
    ("blue",   (⟨0, 0, 200⟩,     ⟨100, 100, 255⟩)),
    ("yellow", (⟨200, 200, 0⟩,   ⟨255, 255, 100⟩)),
    ("orange", (⟨255, 165, 0⟩,   ⟨255, 255, 100⟩)),
    ("pink",   (⟨150, 50, 100⟩,  ⟨255, 200, 220⟩)) ]

/-- Python dict lookup `self.color_bounds[color]`; `none` models a key
miss (`color not in self.color_bounds`). -/
def lookupColor (color : String) : Option (RGB × RGB) :=
  (color_bounds.find? (fun p => p.1 = color)).map (·.2)

/-- The `ColorImageFinder` instance state set up by `__init__`. -/
structure ColorImageFinder where
  base_directory : String
  dest_directory : String
  color : String

/-- Constructor `ColorImageFinder.__init__` (logging setup is I/O glue, not modelled):
stores the directories and lowercases the color. -/
def ColorImageFinder.mk_init (color base_dir dest_dir : String) : ColorImageFinder :=
  { base_directory := base_dir
    dest_directory := dest_dir
    color := ⟨toLowerL color.data⟩ }

/-- Method `is_within_date_range` (`color_finder.py` lines 30–36): take the
second underscore-separated segment of the folder name, parse it with
`%Y%m%d`, and test inclusive membership in `[start_date, end_date]`;
`IndexError` (fewer than two segments) and `ValueError` (no parse)
are caught and yield `False`. -/
def is_within_date_range (_self : ColorImageFinder) (folder_name : String)
    (start_date end_date : Date) : Bool :=
  match (splitUnd folder_name.data).get? 1 with
  | none => false
  | some seg =>
    match strptimeYmd seg with
    | none => false
    | some folder_date => dateLe start_date folder_date && dateLe folder_date end_date

/-! ## The classifier `count_color_pixels` -/

/-- The decoded image after `.convert('RGB').resize((100, 100))` and
`np.array`: a 100×100 grid of RGB pixels, flattened row-major. -/
def ResampledImage : Type := Fin (100 * 100) → RGB

/-- One log record emitted through `logging`; constructors carry the
data interpolated into the corresponding f-string. -/
inductive Event where
  /-- `logging.error(f"Color '{self.color}' not supported.")` -/
  | unsupportedColor (color : String)
  /-- `logging.error(f"Error processing image {image_path}: {e}")` -/
  | imageError (image_path : String)
  /-- `logging.info(f"Processing folder: {folder}")` -/
  | processingFolder (folder : String)
  /-- the match log `logging.info(result)` -/
  | matched (image_path : String) (percentage : Rat)
  /-- `logging.info(f"Saved image to {save_path}")` -/
  | savedImage (save_path : String)
  /-- `logging.error(f"Error saving image {image_path}: {e}")` -/
  | saveError (image_path : String)
  /-- `logging.info(f"Total images processed: {image_count}")` -/
  | totalProcessed (image_count : Nat)
  /-- the final `Total images with more than ...` summary line -/
  | totalSummary (image_count : Nat)
deriving DecidableEq, Repr

/-- The numpy mask predicate
`np.all((image_data >= lower_bound) & (image_data <= upper_bound), axis=-1)`
for one pixel: each channel lies within the inclusive bounds. -/
def inColorRange (lower_bound upper_bound p : RGB) : Bool :=
  decide (lower_bound.r ≤ p.r ∧ p.r ≤ upper_bound.r ∧
          lower_bound.g ≤ p.g ∧ p.g ≤ upper_bound.g ∧
          lower_bound.b ≤ p.b ∧ p.b ≤ upper_bound.b)

/-- The flattened pixel list of a resampled image. -/
def pixelList (img : ResampledImage) : List RGB :=
  (List.finRange (100 * 100)).map img

/-- Classifier `count_color_pixels` (`color_finder.py` lines 38–68). Returns the
percentage (`Rat`) together with the log records it emits. Unknown
color: log + 0. Decode failure (`except Exception`): log + 0.
Otherwise: the percentage of in-range pixels over the
`shape[0] * shape[1] = 100 * 100` samples. -/
def count_color_pixels (decode : String → Option ResampledImage)
    (self : ColorImageFinder) (image_path : String) : Rat × List Event :=
  match lookupColor self.color with
  | none => (0, [Event.unsupportedColor self.color])
  | some (lower_bound, upper_bound) =>
    match decode image_path with
    | none => (0, [Event.imageError image_path])
    | some img =>
      let image_data := pixelList img
      let color_pixel_count := (image_data.filter (inColorRange lower_bound upper_bound)).length
      let total_pixel_count := 100 * 100
      ((color_pixel_count : Rat) / (total_pixel_count : Rat) * 100, [])

/-! ## The walker `find_color_images` -/

/-- The filesystem and copy environment `find_color_images` runs against.
`listdir` is `os.listdir(self.base_directory)` in iteration order;
`isDir`/`pathExists` answer `os.path.isdir`/`os.path.exists` for a path;
`walk` yields the `(root, file)` pairs produced by `for root, _, files in
os.walk(p): for file in files` in iteration order; `decode` is the
image-decoding pipeline (see `ResampledImage`); `copyOk path` tells
whether `shutil.copy(path, ...)` succeeds (`false` models a raised
exception). -/
structure FS where
  listdir : List String
  isDir : String → Bool
  pathExists : String → Bool
  walk : String → List (String × String)
  decode : String → Option ResampledImage
  copyOk : String → Bool

/-- Model of `os.path.join` for the relative names appearing here. -/
def joinPath (a b : String) : String := a ++ "/" ++ b

/-- Model of `os.path.basename`: the part after the last slash. -/
def basename (p : String) : String :=
  ⟨((p.data.splitOn '/').getLastD [])⟩

/-- The file filter at `color_finder.py` line 87:
`"Cover" in file and file.lower().endswith('.tif')`. -/
def file_condition (file : String) : Bool :=
  containsSub "Cover".data file.data && isSuffixL ".tif".data (toLowerL file.data)

/-- The walker's running state: log records emitted so far and the
running `image_count`. -/
def WalkState : Type := List Event × Nat

/-- The body of the innermost loop (`color_finder.py` lines 89–106) for
one candidate file: classify, and when
`lower_bound < color_percentage < upper_bound` log the match, attempt
the copy when a destination is set (Python truthiness: non-empty
string), and increment `image_count`. `image_count += 1` sits outside
the `try`/`except` of the copy, so it runs whether or not the copy
succeeds. -/
def processFile (fs : FS) (self : ColorImageFinder) (lower_bound upper_bound : Int)
    (image_path : String) (st : WalkState) : WalkState :=
  let res := count_color_pixels fs.decode self image_path
  let color_percentage := res.1
  let st1 : WalkState := (st.1 ++ res.2, st.2)
  if (lower_bound : Rat) < color_percentage ∧ color_percentage < (upper_bound : Rat) then
    let st2 : WalkState := (st1.1 ++ [Event.matched image_path color_percentage], st1.2)
    let st3 : WalkState :=
      if self.dest_directory ≠ "" then
        let save_path := joinPath self.dest_directory (basename image_path)
        if fs.copyOk image_path then (st2.1 ++ [Event.savedImage save_path], st2.2)
        else (st2.1 ++ [Event.saveError image_path], st2.2)
      else st2
    (st3.1, st3.2 + 1)
  else st1

/-- The `os.walk` loop over one subfolder (`color_finder.py` lines
85–106): every file passes through the `file_condition` filter before
being classified. -/
def walkSubfolder (fs : FS) (self : ColorImageFinder) (lower_bound upper_bound : Int)
    (subfolder_path : String) (st : WalkState) : WalkState :=
  (fs.walk subfolder_path).foldl
    (fun st rf =>
      if file_condition rf.2 then
        processFile fs self lower_bound upper_bound (joinPath rf.1 rf.2) st
      else st)
    st

/-- The loop over the two fixed subfolder names (`color_finder.py`
lines 82–106). -/
def processFolder (fs : FS) (self : ColorImageFinder) (lower_bound upper_bound : Int)
    (folder_path : String) (st : WalkState) : WalkState :=
  ["undatabased", "databased"].foldl
    (fun st subfolder =>
      let subfolder_path := joinPath folder_path subfolder
      if fs.pathExists subfolder_path then
        walkSubfolder fs self lower_bound upper_bound subfolder_path st
      else st)
    st

/-- One iteration of the outer `for folder in os.listdir(...)` loop
(`color_finder.py` lines 76–113). Note that the two summary
`logging.info` calls (lines 110–113) are inside this loop but outside
the `if os.path.isdir(...) and self.is_within_date_range(...)` block,
so they run for every directory entry. -/
def folderStep (fs : FS) (self : ColorImageFinder) (start_date end_date : Date)
    (lower_bound upper_bound : Int) (st : WalkState) (folder : String) : WalkState :=
  let folder_path := joinPath self.base_directory folder
  let st1 : WalkState :=
    if fs.isDir folder_path && is_within_date_range self folder start_date end_date then
      processFolder fs self lower_bound upper_bound folder_path
        (st.1 ++ [Event.processingFolder folder], st.2)
    else st
  (st1.1 ++ [Event.totalProcessed st1.2, Event.totalSummary st1.2], st1.2)

/-- Walker `find_color_images` after its two `strptime` calls on the date
arguments (`color_finder.py` lines 73–113): fold the per-folder step
over `os.listdir(self.base_directory)` starting from an empty log and
`image_count = 0`. -/
def find_color_images (fs : FS) (self : ColorImageFinder) (start_date end_date : Date)
    (lower_bound upper_bound : Int) : WalkState :=
  fs.listdir.foldl (folderStep fs self start_date end_date lower_bound upper_bound) ([], 0)

/-- Walker `find_color_images` as called, with string dates
(`color_finder.py` lines 70–72); `none` models the uncaught
`ValueError` when a date argument does not parse. -/
def find_color_images_str (fs : FS) (self : ColorImageFinder) (start_date end_date : String)
    (lower_bound upper_bound : Int) : Option WalkState :=
  match strptimeYmd start_date.data, strptimeYmd end_date.data with
  | some s, some e => some (find_color_images fs self s e lower_bound upper_bound)
  | _, _ => none

/-- Is an event one of the two end-of-pass summary log lines
(`color_finder.py` lines 110 and 112–113)? -/
def isSummaryEvent : Event → Bool
  | Event.totalProcessed _ => true
  | Event.totalSummary _ => true
  | _ => false

/-- Number of summary log lines in an event list. -/
def summaryCount (evs : List Event) : Nat :=
  evs.countP isSummaryEvent

/-- Number of immediate child directories of the root that pass the
date-range filter (the "qualifying batch folders"). -/
def qualifyingCount (fs : FS) (self : ColorImageFinder) (start_date end_date : Date) : Nat :=
  (fs.listdir.filter (fun folder =>
    fs.isDir (joinPath self.base_directory folder) &&
      is_within_date_range self folder start_date end_date)).length

/-! ## Helper lemmas -/

/-- Every registry entry has componentwise ordered bounds (shared helper). -/
theorem mem_color_bounds_le {name : String} {lo hi : RGB}
    (h : (name, (lo, hi)) ∈ color_bounds) :
    lo.r ≤ hi.r ∧ lo.g ≤ hi.g ∧ lo.b ≤ hi.b := by
  have hall : ∀ p ∈ color_bounds,
      p.2.1.r ≤ p.2.2.r ∧ p.2.1.g ≤ p.2.2.g ∧ p.2.1.b ≤ p.2.2.b := by decide
  exact hall (name, (lo, hi)) h

/-- Registry membership determines the dict lookup (keys are distinct). -/
theorem lookupColor_of_mem {name : String} {lo hi : RGB}
    (h : (name, (lo, hi)) ∈ color_bounds) :
    lookupColor name = some (lo, hi) := by
  have hall : ∀ p ∈ color_bounds, lookupColor p.1 = some p.2 := by decide
  exact hall (name, (lo, hi)) h

/-- A registry lower bound is inside its own inclusive color range. -/
theorem inColorRange_lower {name : String} {lo hi : RGB}
    (h : (name, (lo, hi)) ∈ color_bounds) :
    inColorRange lo hi lo = true := by
  obtain ⟨h1, h2, h3⟩ := mem_color_bounds_le h
  simp [inColorRange, h1, h2, h3]

/-- The resampled pixel list always has `100 * 100` samples. -/
theorem pixelList_length (img : ResampledImage) : (pixelList img).length = 100 * 100 := by
  simp [pixelList]

/-- Unknown-color branch of `count_color_pixels`, as an equation. -/
theorem count_color_pixels_unknown (decode : String → Option ResampledImage)
    (self : ColorImageFinder) (image_path : String)
    (h : lookupColor self.color = none) :
    count_color_pixels decode self image_path = (0, [Event.unsupportedColor self.color]) := by
  unfold count_color_pixels
  rw [h]

/-- Decode-failure branch of `count_color_pixels`, as an equation. -/
theorem count_color_pixels_decode_fail (decode : String → Option ResampledImage)
    (self : ColorImageFinder) (image_path : String) (lo hi : RGB)
    (h1 : lookupColor self.color = some (lo, hi))
    (h2 : decode image_path = none) :
    count_color_pixels decode self image_path = (0, [Event.imageError image_path]) := by
  unfold count_color_pixels
  rw [h1, h2]

/-- Successful branch of `count_color_pixels`, as an equation. -/
theorem count_color_pixels_known (decode : String → Option ResampledImage)
    (self : ColorImageFinder) (image_path : String) (lo hi : RGB) (img : ResampledImage)
    (h1 : lookupColor self.color = some (lo, hi))
    (h2 : decode image_path = some img) :
    count_color_pixels decode self image_path =
      ((((pixelList img).filter (inColorRange lo hi)).length : Rat)
        / ((100 * 100 : Rat)) * 100, []) := by
  unfold count_color_pixels
  rw [h1, h2]

/-- The classifier never emits a match, copy, folder or summary record;
its own log is one of `[]`, `[unsupportedColor _]`, `[imageError _]`. -/
theorem count_color_pixels_events (decode : String → Option ResampledImage)
    (self : ColorImageFinder) (image_path : String) :
    (count_color_pixels decode self image_path).2 = [] ∨
    (count_color_pixels decode self image_path).2 = [Event.unsupportedColor self.color] ∨
    (count_color_pixels decode self image_path).2 = [Event.imageError image_path] := by
  unfold count_color_pixels
  rcases lookupColor self.color with - | ⟨lo, hi⟩ <;>
    [skip; rcases decode image_path with - | img] <;> simp

/-! ## Claims -/

/-- C8: every named color spec in the registry built by
`ColorImageFinder.__init__` satisfies `lower[c] ≤ upper[c]` for every
channel c ∈ {R, G, B}. -/
theorem C8_registry_bounds_ordered (name : String) (lo hi : RGB)
    (h : (name, (lo, hi)) ∈ color_bounds) :
    lo.r ≤ hi.r ∧ lo.g ≤ hi.g ∧ lo.b ≤ hi.b :=
  mem_color_bounds_le h

theorem C8_registry_bounds_ordered_witness :
    ("orange", ((⟨255, 165, 0⟩ : RGB), (⟨255, 255, 100⟩ : RGB))) ∈ color_bounds ∧
    ((255 : Nat) ≤ 255 ∧ (165 : Nat) ≤ 255 ∧ (0 : Nat) ≤ 100) :=
  ⟨by decide, C8_registry_bounds_ordered "orange" ⟨255, 165, 0⟩ ⟨255, 255, 100⟩ (by decide)⟩

/-- C5: for a color absent from the registry, `count_color_pixels`
returns 0, emits exactly the one unsupported-color error record, and
(being a total function) raises nothing; the walker continues. -/
theorem C5_unknown_color (decode : String → Option ResampledImage)
    (self : ColorImageFinder) (image_path : String)
    (h : lookupColor self.color = none) :
    count_color_pixels decode self image_path = (0, [Event.unsupportedColor self.color]) :=
  count_color_pixels_unknown decode self image_path h

theorem C5_unknown_color_witness :
    count_color_pixels (fun _ => none) ⟨"/base", "/dest", "purple"⟩ "/base/f.tif"
      = (0, [Event.unsupportedColor "purple"]) :=
  C5_unknown_color (fun _ => none) ⟨"/base", "/dest", "purple"⟩ "/base/f.tif" (by decide)

/-- C6: for a known color but an unreadable/undecodable image
(`decode` returns `none`), `count_color_pixels` catches the error,
emits exactly the one error record, and returns 0; being total, one
file's failure cannot abort the surrounding walk. -/
theorem C6_decode_failure (decode : String → Option ResampledImage)
    (self : ColorImageFinder) (image_path : String) (lo hi : RGB)
    (h1 : lookupColor self.color = some (lo, hi))
    (h2 : decode image_path = none) :
    count_color_pixels decode self image_path = (0, [Event.imageError image_path]) :=
  count_color_pixels_decode_fail decode self image_path lo hi h1 h2

theorem C6_decode_failure_witness :
    count_color_pixels (fun _ => none) ⟨"/base", "/dest", "red"⟩ "/base/zero_byte.tif"
      = (0, [Event.imageError "/base/zero_byte.tif"]) :=
  C6_decode_failure (fun _ => none) ⟨"/base", "/dest", "red"⟩ "/base/zero_byte.tif"
    ⟨255, 0, 0⟩ ⟨255, 250, 255⟩ (by decide) rfl

/-- C10: the classifier's percentage always lies in the closed
interval [0, 100]: it is 0 on unknown colors and decode failures, and
otherwise a filtered-pixel count over the fixed `100 * 100` samples,
which the filter can never exceed. -/
theorem C10_percentage_in_range (decode : String → Option ResampledImage)
    (self : ColorImageFinder) (image_path : String) :
    0 ≤ (count_color_pixels decode self image_path).1 ∧
    (count_color_pixels decode self image_path).1 ≤ 100 := by
  rcases hc : lookupColor self.color with - | ⟨lo, hi⟩
  · rw [count_color_pixels_unknown decode self image_path hc]
    norm_num
  · rcases hd : decode image_path with - | img
    · rw [count_color_pixels_decode_fail decode self image_path lo hi hc hd]
      norm_num
    · rw [count_color_pixels_known decode self image_path lo hi img hc hd]
      constructor
      · positivity
      · have hle : ((pixelList img).filter (inColorRange lo hi)).length ≤ 100 * 100 :=
          calc ((pixelList img).filter (inColorRange lo hi)).length
              ≤ (pixelList img).length := List.length_filter_le _ _
            _ = 100 * 100 := pixelList_length img
        have hle' : (((pixelList img).filter (inColorRange lo hi)).length : Rat)
            ≤ (100 * 100 : Rat) := by exact_mod_cast hle
        calc (((pixelList img).filter (inColorRange lo hi)).length : Rat)
            / ((100 * 100 : Rat)) * 100
            ≤ (100 * 100 : Rat) / ((100 * 100 : Rat)) * 100 := by gcongr
          _ = 100 := by norm_num

/-- C2: on a decodable image whose every resampled pixel equals the
configured color's lower-bound triple, `count_color_pixels` returns
exactly 100: channel membership is inclusive on both ends, so the
exact lower bound is in range for every channel (using that every
registry entry satisfies lower ≤ upper componentwise). -/
theorem C2_all_lower_bound_pixels (decode : String → Option ResampledImage)
    (self : ColorImageFinder) (image_path : String) (lo hi : RGB) (img : ResampledImage)
    (hmem : (self.color, (lo, hi)) ∈ color_bounds)
    (hdec : decode image_path = some img)
    (hpix : ∀ i, img i = lo) :
    (count_color_pixels decode self image_path).1 = 100 := by
  rw [count_color_pixels_known decode self image_path lo hi img (lookupColor_of_mem hmem) hdec]
  have hfil : (pixelList img).filter (inColorRange lo hi) = pixelList img := by
    apply List.filter_eq_self.mpr
    intro a ha
    simp only [pixelList, List.mem_map] at ha
    obtain ⟨i, -, rfl⟩ := ha
    rw [hpix i]
    exact inColorRange_lower hmem
  rw [hfil, pixelList_length]
  norm_num

theorem C2_all_lower_bound_pixels_witness :
    (count_color_pixels (fun _ => some (fun _ => (⟨255, 0, 0⟩ : RGB)))
      ⟨"/base", "/dest", "red"⟩ "/base/ACover.tif").1 = 100 :=
  C2_all_lower_bound_pixels (fun _ => some (fun _ => (⟨255, 0, 0⟩ : RGB)))
    ⟨"/base", "/dest", "red"⟩ "/base/ACover.tif" ⟨255, 0, 0⟩ ⟨255, 250, 255⟩
    (fun _ => ⟨255, 0, 0⟩) (by decide) rfl (fun _ => rfl)

/-- C3: a folder qualifies iff its second underscore-separated segment
parses under `%Y%m%d` to a date within `[start_date, end_date]`
inclusive; `"CP1_20240115_BATCH"` qualifies for 2024-01-01..2024-01-31
and not for 2024-02-01..2024-02-28; and a name with fewer than two
underscore-separated segments never qualifies (the `IndexError` is
caught, so nothing is raised). -/
theorem C3_folder_date_filter :
    (∀ (self : ColorImageFinder) (name : String) (s e : Date),
      is_within_date_range self name s e = true ↔
        ∃ seg d, (splitUnd name.data)[1]? = some seg ∧ strptimeYmd seg = some d ∧
          dateLe s d = true ∧ dateLe d e = true)
    ∧ is_within_date_range ⟨"", "", ""⟩ "CP1_20240115_BATCH" ⟨2024, 1, 1⟩ ⟨2024, 1, 31⟩ = true
    ∧ is_within_date_range ⟨"", "", ""⟩ "CP1_20240115_BATCH" ⟨2024, 2, 1⟩ ⟨2024, 2, 28⟩ = false
    ∧ (∀ (self : ColorImageFinder) (name : String) (s e : Date),
        (splitUnd name.data).length < 2 → is_within_date_range self name s e = false) := by
  refine ⟨?_, by decide, by decide, ?_⟩
  · intro self name s e
    cases h1 : (splitUnd name.data)[1]? with
    | none => simp [is_within_date_range, h1]
    | some seg =>
      cases h2 : strptimeYmd seg with
      | none => simp [is_within_date_range, h1, h2]
      | some d => simp [is_within_date_range, h1, h2, Bool.and_eq_true]
  · intro self name s e h
    have hn : (splitUnd name.data)[1]? = none := List.getElem?_eq_none (by omega)
    simp [is_within_date_range, hn]

theorem C3_folder_date_filter_witness :
    is_within_date_range ⟨"", "", ""⟩ "CP1" ⟨2024, 1, 1⟩ ⟨2024, 1, 31⟩ = false :=
  C3_folder_date_filter.2.2.2 ⟨"", "", ""⟩ "CP1" ⟨2024, 1, 1⟩ ⟨2024, 1, 31⟩ (by decide)

/-- The log records produced by the copy step for one matched file. -/
def copyEvents (fs : FS) (self : ColorImageFinder) (image_path : String) : List Event :=
  if self.dest_directory ≠ "" then
    if fs.copyOk image_path then
      [Event.savedImage (joinPath self.dest_directory (basename image_path))]
    else [Event.saveError image_path]
  else []

/-- Rewriting of `processFile` as a single case equation: on a match it appends the
classifier log, the match record and the copy records and increments
the count; otherwise it appends only the classifier log. -/
theorem processFile_eq (fs : FS) (self : ColorImageFinder) (lower_bound upper_bound : Int)
    (image_path : String) (st : WalkState) :
    processFile fs self lower_bound upper_bound image_path st =
      if (lower_bound : Rat) < (count_color_pixels fs.decode self image_path).1 ∧
          (count_color_pixels fs.decode self image_path).1 < (upper_bound : Rat) then
        (st.1 ++ (count_color_pixels fs.decode self image_path).2 ++
          [Event.matched image_path (count_color_pixels fs.decode self image_path).1] ++
          copyEvents fs self image_path,
         st.2 + 1)
      else (st.1 ++ (count_color_pixels fs.decode self image_path).2, st.2) := by
  unfold processFile copyEvents
  by_cases h1 : (lower_bound : Rat) < (count_color_pixels fs.decode self image_path).1 ∧
      (count_color_pixels fs.decode self image_path).1 < (upper_bound : Rat)
  · by_cases h2 : self.dest_directory = ""
    · simp [h1, h2, List.append_assoc]
    · by_cases h3 : fs.copyOk image_path
      · simp [h1, h2, h3, List.append_assoc]
      · simp [h1, h2, h3, List.append_assoc]
  · simp [h1]

/-- The matched-file record never comes from the classifier itself. -/
theorem matched_notin_classifier (decode : String → Option ResampledImage)
    (self : ColorImageFinder) (image_path p : String) (q : Rat) :
    Event.matched p q ∉ (count_color_pixels decode self image_path).2 := by
  rcases count_color_pixels_events decode self image_path with h | h | h <;> simp [h]

/-- C1: per candidate file, the walker logs a match record and
increments the running count exactly when the computed percentage is
strictly above `lower_bound` and strictly below `upper_bound`; a
percentage equal to either bound leaves the log and count unchanged. -/
theorem C1_strict_threshold (fs : FS) (self : ColorImageFinder)
    (lower_bound upper_bound : Int) (image_path : String) (n : Nat) :
    (Event.matched image_path (count_color_pixels fs.decode self image_path).1
        ∈ (processFile fs self lower_bound upper_bound image_path ([], n)).1
      ↔ ((lower_bound : Rat) < (count_color_pixels fs.decode self image_path).1 ∧
          (count_color_pixels fs.decode self image_path).1 < (upper_bound : Rat)))
    ∧ ((processFile fs self lower_bound upper_bound image_path ([], n)).2 =
        if (lower_bound : Rat) < (count_color_pixels fs.decode self image_path).1 ∧
            (count_color_pixels fs.decode self image_path).1 < (upper_bound : Rat)
        then n + 1 else n)
    ∧ ((count_color_pixels fs.decode self image_path).1 = (lower_bound : Rat) ∨
        (count_color_pixels fs.decode self image_path).1 = (upper_bound : Rat) →
        (processFile fs self lower_bound upper_bound image_path ([], n)).2 = n) := by
  rw [processFile_eq fs self lower_bound upper_bound image_path ([], n)]
  by_cases h : (lower_bound : Rat) < (count_color_pixels fs.decode self image_path).1 ∧
      (count_color_pixels fs.decode self image_path).1 < (upper_bound : Rat)
  · refine ⟨by simp [h], by simp [h], ?_⟩
    rintro (heq | heq)
    · exact absurd h (by rw [heq] at h ⊢; exact fun hc => lt_irrefl _ hc.1)
    · exact absurd h (by rw [heq] at h ⊢; exact fun hc => lt_irrefl _ hc.2)
  · exact ⟨by simp [h, matched_notin_classifier], by simp [h], fun _ => by simp [h]⟩

theorem C1_strict_threshold_witness :
    ((count_color_pixels (fun _ => none) (⟨"/base", "", "purple"⟩ : ColorImageFinder) "p").1
        = ((0 : Int) : Rat)) ∧
    (processFile ⟨[], fun _ => false, fun _ => false, fun _ => [], fun _ => none, fun _ => true⟩
      ⟨"/base", "", "purple"⟩ 0 100 "p" ([], 5)).2 = 5 :=
  ⟨by decide,
    (C1_strict_threshold
      ⟨[], fun _ => false, fun _ => false, fun _ => [], fun _ => none, fun _ => true⟩
      ⟨"/base", "", "purple"⟩ 0 100 "p" 5).2.2 (Or.inl (by decide))⟩

/-- C9: when a matched file's copy fails, the failure is logged via the
save-error record, the match record is still logged, and the running
count is still incremented; the walker is a total fold, so the failure
aborts nothing. -/
theorem C9_copy_failure_still_counted (fs : FS) (self : ColorImageFinder)
    (lower_bound upper_bound : Int) (image_path : String) (n : Nat)
    (hdest : self.dest_directory ≠ "")
    (hcopy : fs.copyOk image_path = false)
    (hlo : (lower_bound : Rat) < (count_color_pixels fs.decode self image_path).1)
    (hhi : (count_color_pixels fs.decode self image_path).1 < (upper_bound : Rat)) :
    (processFile fs self lower_bound upper_bound image_path ([], n)).2 = n + 1 ∧
    Event.saveError image_path
      ∈ (processFile fs self lower_bound upper_bound image_path ([], n)).1 ∧
    Event.matched image_path (count_color_pixels fs.decode self image_path).1
      ∈ (processFile fs self lower_bound upper_bound image_path ([], n)).1 := by
  rw [processFile_eq fs self lower_bound upper_bound image_path ([], n),
    if_pos ⟨hlo, hhi⟩]
  simp [copyEvents, hdest, hcopy]

theorem C9_copy_failure_still_counted_witness :
    (processFile ⟨[], fun _ => false, fun _ => false, fun _ => [], fun _ => none, fun _ => false⟩
      ⟨"/base", "/dest", "purple"⟩ (-1) 1 "p" ([], 0)).2 = 0 + 1 ∧
    Event.saveError "p"
      ∈ (processFile ⟨[], fun _ => false, fun _ => false, fun _ => [], fun _ => none,
          fun _ => false⟩ ⟨"/base", "/dest", "purple"⟩ (-1) 1 "p" ([], 0)).1 ∧
    Event.matched "p"
        (count_color_pixels (fun _ => none) (⟨"/base", "/dest", "purple"⟩ : ColorImageFinder)
          "p").1
      ∈ (processFile ⟨[], fun _ => false, fun _ => false, fun _ => [], fun _ => none,
          fun _ => false⟩ ⟨"/base", "/dest", "purple"⟩ (-1) 1 "p" ([], 0)).1 :=
  C9_copy_failure_still_counted
    ⟨[], fun _ => false, fun _ => false, fun _ => [], fun _ => none, fun _ => false⟩
    ⟨"/base", "/dest", "purple"⟩ (-1) 1 "p" 0 (by decide) rfl (by decide) (by decide)

/-- Correctness of `isPrefixL`: it decides list-prefix decomposition. -/
theorem isPrefixL_iff (n : List Char) : ∀ h : List Char,
    isPrefixL n h = true ↔ ∃ t, h = n ++ t := by
  induction n with
  | nil =>
    intro h
    simp [isPrefixL]
  | cons a as ih =>
    intro h
    cases h with
    | nil => simp [isPrefixL]
    | cons b bs =>
      simp only [isPrefixL]
      by_cases hab : a = b
      · subst hab
        rw [if_pos rfl, ih bs]
        constructor
        · rintro ⟨t, rfl⟩
          exact ⟨t, rfl⟩
        · rintro ⟨t, ht⟩
          exact ⟨t, (List.cons.inj ht).2⟩
      · rw [if_neg hab]
        constructor
        · intro hfalse
          simp at hfalse
        · rintro ⟨t, ht⟩
          exact absurd (List.cons.inj ht).1.symm hab

/-- Correctness of `containsSub`: it decides Python's substring containment: some
decomposition `hay = s ++ needle ++ t` exists. -/
theorem containsSub_iff (n : List Char) : ∀ hay : List Char,
    containsSub n hay = true ↔ ∃ s t, hay = s ++ n ++ t := by
  intro hay
  induction hay with
  | nil =>
    simp only [containsSub, isPrefixL_iff]
    constructor
    · rintro ⟨t, ht⟩
      exact ⟨[], t, ht⟩
    · rintro ⟨s, t, hst⟩
      rcases List.append_eq_nil.mp hst.symm with ⟨h1, rfl⟩
      rcases List.append_eq_nil.mp h1 with ⟨rfl, rfl⟩
      exact ⟨[], rfl⟩
  | cons c cs ih =>
    simp only [containsSub, Bool.or_eq_true, isPrefixL_iff, ih]
    constructor
    · rintro (⟨t, ht⟩ | ⟨s, t, hst⟩)
      · exact ⟨[], t, by simpa using ht⟩
      · exact ⟨c :: s, t, by simp [hst]⟩
    · rintro ⟨s, t, hst⟩
      cases s with
      | nil => exact Or.inl ⟨t, by simpa using hst⟩
      | cons c1 s1 =>
        rcases List.cons.inj hst with ⟨-, h2⟩
        exact Or.inr ⟨s1, t, h2⟩

/-- Correctness of `isSuffixL`: it decides Python's `endswith`: some decomposition
`hay = s ++ needle` exists. -/
theorem isSuffixL_iff (n hay : List Char) :
    isSuffixL n hay = true ↔ ∃ s, hay = s ++ n := by
  unfold isSuffixL
  rw [isPrefixL_iff]
  constructor
  · rintro ⟨t, ht⟩
    refine ⟨t.reverse, ?_⟩
    have h2 := congrArg List.reverse ht
    simpa using h2
  · rintro ⟨s, rfl⟩
    exact ⟨s.reverse, by simp⟩

/-- C4: a file inside a qualifying batch folder's subtrees is handed to
the classifier iff its name contains the exact-case substring `"Cover"`
and its lowercased name ends with `".tif"`: the walk over a subfolder
equals the walk restricted to the files passing `file_condition`, and
`file_condition` holds iff the two decompositions exist. Concrete
checks: `.TIF` with exact-case `Cover` passes; lowercase `cover`
fails; a `.tiff` extension fails. -/
theorem C4_candidate_file_filter :
    (∀ file : String, file_condition file = true ↔
      ((∃ s t, file.data = s ++ "Cover".data ++ t) ∧
        ∃ s, toLowerL file.data = s ++ ".tif".data))
    ∧ (∀ (fs : FS) (self : ColorImageFinder) (lower_bound upper_bound : Int)
        (subfolder_path : String) (st : WalkState),
        walkSubfolder fs self lower_bound upper_bound subfolder_path st =
          ((fs.walk subfolder_path).filter (fun rf => file_condition rf.2)).foldl
            (fun st rf => processFile fs self lower_bound upper_bound (joinPath rf.1 rf.2) st)
            st)
    ∧ file_condition "G1_Cover_001.TIF" = true
    ∧ file_condition "G1_cover_001.tif" = false
    ∧ file_condition "G1_Cover_001.tiff" = false := by
  refine ⟨?_, ?_, by decide, by decide, by decide⟩
  · intro file
    unfold file_condition
    rw [Bool.and_eq_true, containsSub_iff, isSuffixL_iff]
  · intro fs self lower_bound upper_bound subfolder_path st
    unfold walkSubfolder
    generalize fs.walk subfolder_path = l
    induction l generalizing st with
    | nil => rfl
    | cons rf l ih =>
      by_cases h : file_condition rf.2
      · simp only [List.foldl_cons, List.filter_cons, h, if_true, ih]
      · simp only [List.foldl_cons, List.filter_cons, h, if_false, ih, Bool.false_eq_true]

/-- Distributivity of `summaryCount` over list append. -/
theorem summaryCount_append (a b : List Event) :
    summaryCount (a ++ b) = summaryCount a + summaryCount b := by
  simp [summaryCount]

/-- The classifier's log records are never summary lines. -/
theorem summaryCount_classifier (decode : String → Option ResampledImage)
    (self : ColorImageFinder) (image_path : String) :
    summaryCount (count_color_pixels decode self image_path).2 = 0 := by
  rcases count_color_pixels_events decode self image_path with h | h | h <;>
    simp [h, summaryCount, isSummaryEvent]

/-- The copy step's log records are never summary lines. -/
theorem summaryCount_copyEvents (fs : FS) (self : ColorImageFinder) (image_path : String) :
    summaryCount (copyEvents fs self image_path) = 0 := by
  unfold copyEvents
  split_ifs <;> simp [summaryCount, isSummaryEvent]

/-- Classifying one candidate file never adds a summary line. -/
theorem summaryCount_processFile (fs : FS) (self : ColorImageFinder)
    (lower_bound upper_bound : Int) (image_path : String) (st : WalkState) :
    summaryCount (processFile fs self lower_bound upper_bound image_path st).1 =
      summaryCount st.1 := by
  rw [processFile_eq]
  split_ifs
  · rw [summaryCount_append, summaryCount_append, summaryCount_append,
      summaryCount_classifier, summaryCount_copyEvents]
    simp [summaryCount, List.countP_cons, isSummaryEvent]
  · rw [summaryCount_append, summaryCount_classifier, Nat.add_zero]

/-- A fold whose step never adds a summary line never adds one. -/
theorem summaryCount_foldl {α : Type} (f : WalkState → α → WalkState)
    (hf : ∀ st a, summaryCount (f st a).1 = summaryCount st.1) (l : List α) :
    ∀ st : WalkState, summaryCount (l.foldl f st).1 = summaryCount st.1 := by
  induction l with
  | nil => intro st; rfl
  | cons a l ih => intro st; rw [List.foldl_cons, ih, hf]

/-- Walking one subfolder never adds a summary line. -/
theorem summaryCount_walkSubfolder (fs : FS) (self : ColorImageFinder)
    (lower_bound upper_bound : Int) (subfolder_path : String) (st : WalkState) :
    summaryCount (walkSubfolder fs self lower_bound upper_bound subfolder_path st).1 =
      summaryCount st.1 := by
  unfold walkSubfolder
  apply summaryCount_foldl
  intro st rf
  by_cases h : file_condition rf.2
  · simp [h, summaryCount_processFile]
  · simp [h]

/-- Processing a qualifying folder's two subfolders never adds a
summary line. -/
theorem summaryCount_processFolder (fs : FS) (self : ColorImageFinder)
    (lower_bound upper_bound : Int) (folder_path : String) (st : WalkState) :
    summaryCount (processFolder fs self lower_bound upper_bound folder_path st).1 =
      summaryCount st.1 := by
  unfold processFolder
  apply summaryCount_foldl
  intro st sub
  by_cases h : fs.pathExists (joinPath folder_path sub)
  · simp [h, summaryCount_walkSubfolder]
  · simp [h]

/-- Every iteration of the outer folder loop appends exactly the two
summary lines, whether or not the entry qualifies. -/
theorem summaryCount_folderStep (fs : FS) (self : ColorImageFinder)
    (start_date end_date : Date) (lower_bound upper_bound : Int)
    (st : WalkState) (folder : String) :
    summaryCount (folderStep fs self start_date end_date lower_bound upper_bound st folder).1 =
      summaryCount st.1 + 2 := by
  unfold folderStep
  by_cases h : fs.isDir (joinPath self.base_directory folder) &&
      is_within_date_range self folder start_date end_date
  · simp only [h, if_true]
    rw [summaryCount_append, summaryCount_processFolder, summaryCount_append]
    simp [summaryCount, isSummaryEvent]
  · simp only [h, if_false, Bool.false_eq_true]
    rw [summaryCount_append]
    simp [summaryCount, isSummaryEvent]

/-- C7 counterexample: a root whose single `os.listdir` entry is a
plain file (so zero qualifying batch folders) still gets the two
summary lines once — the summary emissions (2) do not equal the two
lines times the number of qualifying folders (0), because the summary
calls sit inside the `for folder in os.listdir(...)` loop but outside
the qualifying `if`. -/
theorem C7_summary_per_listdir_entry_counterexample :
    summaryCount (find_color_images
      ⟨["notes.txt"], fun _ => false, fun _ => false, fun _ => [], fun _ => none, fun _ => true⟩
      ⟨"/base", "", "red"⟩ ⟨2024, 1, 1⟩ ⟨2024, 1, 31⟩ 50 100).1 = 2
    ∧ qualifyingCount
      ⟨["notes.txt"], fun _ => false, fun _ => false, fun _ => [], fun _ => none, fun _ => true⟩
      ⟨"/base", "", "red"⟩ ⟨2024, 1, 1⟩ ⟨2024, 1, 31⟩ = 0 := by
  constructor <;> rfl

/-- C7 (amended): the two end-of-pass summary log lines are emitted
once per immediate child entry of the root directory listing —
qualifying or not, directory or not — so the number of summary
emissions is `2 * |os.listdir(base_directory)|`, not the number of
qualifying batch folders. -/
theorem C7_summary_per_listdir_entry (fs : FS) (self : ColorImageFinder)
    (start_date end_date : Date) (lower_bound upper_bound : Int) :
    summaryCount (find_color_images fs self start_date end_date lower_bound upper_bound).1 =
      2 * fs.listdir.length := by
  unfold find_color_images
  suffices h : ∀ (l : List String) (st : WalkState),
      summaryCount ((l.foldl (folderStep fs self start_date end_date lower_bound upper_bound)
        st).1) = summaryCount st.1 + 2 * l.length by
    simpa [summaryCount] using h fs.listdir ([], 0)
  intro l
  induction l with
  | nil => intro st; simp
  | cons a l ih =>
    intro st
    rw [List.foldl_cons, ih, summaryCount_folderStep, List.length_cons]
    ring
